import Mathlib

/-!
Shallow embedding of the `world_engine` simulation framework (epistemic
layers, event queue, story arcs) and verification of the claims in its
natural-language specification.

Modelling conventions:
* Python `float` quantities (confidences, trust, skepticism, reliability
  scores) are modelled as `ℚ`.
* Python `dict` is modelled as an insertion-ordered association list:
  updating an existing key keeps its position, a new key is appended.
* Python `set` is modelled as an insertion-ordered duplicate-free list.
* Simulation ticks and priorities are modelled as `ℕ` (they are
  non-negative in every code path of the repository).
* Raising an exception is modelled with `Except`, carrying the message.
-/

namespace WorldEngine

/-! ### Association lists (model of Python `dict`) -/

def lookupA {κ α : Type} [DecidableEq κ] (l : List (κ × α)) (k : κ) : Option α :=
  ((l.find? fun p => decide (p.1 = k)).map fun p => p.2)

def insertA {κ α : Type} [DecidableEq κ] (l : List (κ × α)) (k : κ) (v : α) :
    List (κ × α) :=
  match l with
  | [] => [(k, v)]
  | (k', v') :: rest => if k' = k then (k, v) :: rest else (k', v') :: insertA rest k v

def removeA {κ α : Type} [DecidableEq κ] (l : List (κ × α)) (k : κ) : List (κ × α) :=
  match l with
  | [] => []
  | (k', v') :: rest => if k' = k then rest else (k', v') :: removeA rest k

/-- `d.setdefault(k, []).append(x)` pattern used by the index dictionaries. -/
def appendAt {κ α : Type} [DecidableEq κ] (l : List (κ × List α)) (k : κ) (x : α) :
    List (κ × List α) :=
  match lookupA l k with
  | none => l ++ [(k, [x])]
  | some xs => insertA l k (xs ++ [x])

/-- Python `set.add`: sets are modelled as insertion-ordered lists. -/
def setAdd {α : Type} [DecidableEq α] (l : List α) (x : α) : List α :=
  if x ∈ l then l else l ++ [x]

/-! ### Decimal rendering of naturals (model of Python `str(int)`)

`natStr` is written with explicit fuel so it is structural recursion and
evaluates inside the kernel. -/

def digitChar (d : Nat) : Char := Char.ofNat (48 + d)

def charToDigit (c : Char) : Nat := c.toNat - 48

def natDigitsRev : Nat → Nat → List Nat
  | 0, _ => []
  | _ + 1, 0 => []
  | fuel + 1, n + 1 => ((n + 1) % 10) :: natDigitsRev fuel ((n + 1) / 10)

def natStr (n : Nat) : String :=
  ⟨if n = 0 then ['0'] else ((natDigitsRev n n).reverse.map digitChar)⟩

def undigits : List Nat → Nat
  | [] => 0
  | d :: rest => d + 10 * undigits rest

/-- Decode the big-endian character rendering back to the natural number. -/
def decodeChars (l : List Char) : Nat := undigits (l.reverse.map charToDigit)

theorem undigits_natDigitsRev : ∀ fuel n, n ≤ fuel →
    undigits (natDigitsRev fuel n) = n := by
  intro fuel
  induction fuel with
  | zero =>
    intro n hn
    interval_cases n
    rfl
  | succ f ih =>
    intro n hn
    match n with
    | 0 => rfl
    | m + 1 =>
      have hdiv : (m + 1) / 10 ≤ f := by
        have h1 : (m + 1) / 10 < m + 1 := Nat.div_lt_self (Nat.succ_pos m) (by norm_num)
        omega
      simp only [natDigitsRev, undigits, ih _ hdiv]
      exact Nat.mod_add_div (m + 1) 10

theorem natDigitsRev_lt : ∀ fuel n d, d ∈ natDigitsRev fuel n → d < 10 := by
  intro fuel
  induction fuel with
  | zero => intro n d hd; simp [natDigitsRev] at hd
  | succ f ih =>
    intro n d hd
    match n with
    | 0 => simp [natDigitsRev] at hd
    | m + 1 =>
      simp only [natDigitsRev, List.mem_cons] at hd
      rcases hd with h | h
      · subst h; exact Nat.mod_lt _ (by norm_num)
      · exact ih _ _ h

theorem charToDigit_digitChar {d : Nat} (hd : d < 10) :
    charToDigit (digitChar d) = d := by
  interval_cases d <;> rfl

theorem digitChar_ne_us {d : Nat} (hd : d < 10) : digitChar d ≠ '_' := by
  interval_cases d <;> decide

theorem decodeChars_natStr (n : Nat) : decodeChars (natStr n).data = n := by
  by_cases h : n = 0
  · subst h; rfl
  · simp only [natStr, if_neg h, decodeChars, List.map_reverse, List.reverse_reverse,
      List.map_map]
    have hcong : ∀ d ∈ natDigitsRev n n, (charToDigit ∘ digitChar) d = d := by
      intro d hd
      exact charToDigit_digitChar (natDigitsRev_lt _ _ _ hd)
    rw [List.map_congr_left hcong]
    simpa using undigits_natDigitsRev n n le_rfl

theorem natStr_injective : Function.Injective natStr := by
  intro a b h
  have := congrArg (fun s => decodeChars s.data) h
  simpa [decodeChars_natStr] using this

theorem natStr_no_us (n : Nat) : ∀ c ∈ (natStr n).data, c ≠ '_' := by
  intro c hc
  by_cases h : n = 0
  · subst h; simp [natStr] at hc; subst hc; decide
  · simp only [natStr, if_neg h, List.mem_map, List.mem_reverse] at hc
    obtain ⟨d, hd, rfl⟩ := hc
    exact digitChar_ne_us (natDigitsRev_lt _ _ _ hd)

/-! ### Suffix after the last underscore (used for id uniqueness) -/

theorem takeWhileNeUS_append (xs ys : List Char) (h : ∀ c ∈ xs, c ≠ '_') :
    (xs ++ '_' :: ys).takeWhile (fun c => c != '_') = xs := by
  induction xs with
  | nil => simp [List.takeWhile_cons]
  | cons x xs ih =>
    have hx : x ≠ '_' := h x (List.mem_cons_self _ _)
    simp only [List.cons_append, List.takeWhile_cons]
    rw [if_pos (by simpa using hx)]
    rw [ih fun c hc => h c (List.mem_cons_of_mem _ hc)]

def tailAfterUS (l : List Char) : List Char :=
  (l.reverse.takeWhile (fun c => c != '_')).reverse

theorem tailAfterUS_append (a r : List Char) (h : ∀ c ∈ r, c ≠ '_') :
    tailAfterUS (a ++ '_' :: r) = r := by
  unfold tailAfterUS
  rw [List.reverse_append, List.reverse_cons, List.append_assoc,
    List.singleton_append]
  rw [takeWhileNeUS_append _ _ (fun c hc => h c (List.mem_reverse.mp hc))]
  exact List.reverse_reverse r

theorem suffix_id_inj (p₁ p₂ : String) (i₁ i₂ : Nat)
    (h : p₁ ++ "_" ++ natStr i₁ = p₂ ++ "_" ++ natStr i₂) : i₁ = i₂ := by
  have hdata := congrArg String.data h
  simp only [String.data_append] at hdata
  have h1 : p₁.data ++ "_".data ++ (natStr i₁).data
      = p₁.data ++ '_' :: (natStr i₁).data := by
    rw [List.append_assoc]; rfl
  have h2 : p₂.data ++ "_".data ++ (natStr i₂).data
      = p₂.data ++ '_' :: (natStr i₂).data := by
    rw [List.append_assoc]; rfl
  rw [h1, h2] at hdata
  have := congrArg tailAfterUS hdata
  rw [tailAfterUS_append _ _ (natStr_no_us i₁),
    tailAfterUS_append _ _ (natStr_no_us i₂)] at this
  have := congrArg decodeChars this
  simpa [decodeChars_natStr] using this

/-! ### Substring containment (for exception-message claims) -/

def strContains (s pat : String) : Prop :=
  ∃ pre post : List Char, s.data = pre ++ pat.data ++ post

/-! ### Python `str.split('_')` -/

def splitUSChars : List Char → List (List Char)
  | [] => [[]]
  | c :: rest =>
    let r := splitUSChars rest
    if c = '_' then [] :: r
    else (c :: r.headD []) :: r.tail

/-- Model of Python `s.split('_')`. -/
def splitUS (s : String) : List String :=
  (splitUSChars s.data).map fun l => ⟨l⟩

/-! ## Layer constraints (`world_engine/epistemic/constraints.py`) -/

namespace Constraints

/-- `EpistemicLayer(IntEnum)`: the four epistemic layers. -/
inductive EpistemicLayer where
  | objectiveWorld
  | informationArtifacts
  | beliefGraph
  | characterMind
deriving DecidableEq, Repr

def EpistemicLayer.value : EpistemicLayer → Nat
  | .objectiveWorld => 1
  | .informationArtifacts => 2
  | .beliefGraph => 3
  | .characterMind => 4

def EpistemicLayer.enumName : EpistemicLayer → String
  | .objectiveWorld => "OBJECTIVE_WORLD"
  | .informationArtifacts => "INFORMATION_ARTIFACTS"
  | .beliefGraph => "BELIEF_GRAPH"
  | .characterMind => "CHARACTER_MIND"

def allowedActionLayer : EpistemicLayer := .informationArtifacts

/-- The `error_messages` dict inside `DirectorConstraint.validate_action`. -/
def errorMessages : EpistemicLayer → Option String
  | .objectiveWorld => some ("Director cannot create objective facts. "
      ++ "Only the simulation engine may modify Layer 1.")
  | .beliefGraph => some ("Director cannot force beliefs. "
      ++ "Beliefs must form naturally from information artifacts.")
  | .characterMind => some ("Director cannot override character minds. "
      ++ "Characters must react based on their own traits and beliefs.")
  | .informationArtifacts => none

/-- `DirectorConstraint.validate_action`.  It is a `@staticmethod` that reads
only class constants, so it can change no state; raising
`DirectorConstraintViolation` is modelled by `Except.error` carrying the
exception message. -/
def validateAction (targetLayer : EpistemicLayer) (action : String) :
    Except String Bool :=
  if targetLayer = allowedActionLayer then .ok true
  else .error ("Director attempted to act on Layer " ++ natStr targetLayer.value
    ++ " (" ++ targetLayer.enumName ++ "): " ++ action ++ "\n"
    ++ (errorMessages targetLayer).getD "Invalid action.")

end Constraints

theorem strContains_mid (s x y z : String) (h : s.data = x.data ++ y.data ++ z.data) :
    strContains s y :=
  ⟨x.data, z.data, h⟩

/-- C1: `DirectorConstraint.validate_action` returns `True` on layer 2
(INFORMATION_ARTIFACTS) and raises `DirectorConstraintViolation` on layers 1,
3 and 4 (the function is a pure static check, so no state is changed), with a
message naming the violated layer and containing, respectively,
"cannot create objective facts", "cannot force beliefs", and
"cannot override character minds". -/
theorem validate_action_spec (action : String) :
    Constraints.validateAction .informationArtifacts action = .ok true
    ∧ (∃ m, Constraints.validateAction .objectiveWorld action = .error m
        ∧ strContains m "OBJECTIVE_WORLD" ∧ strContains m "cannot create objective facts")
    ∧ (∃ m, Constraints.validateAction .beliefGraph action = .error m
        ∧ strContains m "BELIEF_GRAPH" ∧ strContains m "cannot force beliefs")
    ∧ (∃ m, Constraints.validateAction .characterMind action = .error m
        ∧ strContains m "CHARACTER_MIND" ∧ strContains m "cannot override character minds") := by
  refine ⟨rfl, ⟨_, rfl, ?_, ?_⟩, ⟨_, rfl, ?_, ?_⟩, ⟨_, rfl, ?_, ?_⟩⟩
  · exact strContains_mid _
      ("Director attempted to act on Layer "
        ++ natStr (Constraints.EpistemicLayer.value .objectiveWorld) ++ " (")
      "OBJECTIVE_WORLD"
      ("): " ++ action ++ "\n"
        ++ ("Director cannot create objective facts. "
          ++ "Only the simulation engine may modify Layer 1."))
      (by simp [Constraints.EpistemicLayer.enumName, Constraints.errorMessages,
        String.data_append, List.append_assoc])
  · exact strContains_mid _
      ("Director attempted to act on Layer "
        ++ natStr (Constraints.EpistemicLayer.value .objectiveWorld) ++ " ("
        ++ "OBJECTIVE_WORLD" ++ "): " ++ action ++ "\n" ++ "Director ")
      "cannot create objective facts"
      (". " ++ "Only the simulation engine may modify Layer 1.")
      (by
        simp only [Constraints.errorMessages, Option.getD_some]
        rw [show ("Director cannot create objective facts. " : String)
            = "Director " ++ "cannot create objective facts" ++ ". " by decide]
        simp [Constraints.EpistemicLayer.enumName,
          String.data_append, List.append_assoc])
  · exact strContains_mid _
      ("Director attempted to act on Layer "
        ++ natStr (Constraints.EpistemicLayer.value .beliefGraph) ++ " (")
      "BELIEF_GRAPH"
      ("): " ++ action ++ "\n"
        ++ ("Director cannot force beliefs. "
          ++ "Beliefs must form naturally from information artifacts."))
      (by simp [Constraints.EpistemicLayer.enumName, Constraints.errorMessages,
        String.data_append, List.append_assoc])
  · exact strContains_mid _
      ("Director attempted to act on Layer "
        ++ natStr (Constraints.EpistemicLayer.value .beliefGraph) ++ " ("
        ++ "BELIEF_GRAPH" ++ "): " ++ action ++ "\n" ++ "Director ")
      "cannot force beliefs"
      (". " ++ "Beliefs must form naturally from information artifacts.")
      (by
        simp only [Constraints.errorMessages, Option.getD_some]
        rw [show ("Director cannot force beliefs. " : String)
            = "Director " ++ "cannot force beliefs" ++ ". " by decide]
        simp [Constraints.EpistemicLayer.enumName,
          String.data_append, List.append_assoc])
  · exact strContains_mid _
      ("Director attempted to act on Layer "
        ++ natStr (Constraints.EpistemicLayer.value .characterMind) ++ " (")
      "CHARACTER_MIND"
      ("): " ++ action ++ "\n"
        ++ ("Director cannot override character minds. "
          ++ "Characters must react based on their own traits and beliefs."))
      (by simp [Constraints.EpistemicLayer.enumName, Constraints.errorMessages,
        String.data_append, List.append_assoc])
  · exact strContains_mid _
      ("Director attempted to act on Layer "
        ++ natStr (Constraints.EpistemicLayer.value .characterMind) ++ " ("
        ++ "CHARACTER_MIND" ++ "): " ++ action ++ "\n" ++ "Director ")
      "cannot override character minds"
      (". " ++ "Characters must react based on their own traits and beliefs.")
      (by
        simp only [Constraints.errorMessages, Option.getD_some]
        rw [show ("Director cannot override character minds. " : String)
            = "Director " ++ "cannot override character minds" ++ ". " by decide]
        simp [Constraints.EpistemicLayer.enumName,
          String.data_append, List.append_assoc])

/-! ## Layer 1: objective world (`world_engine/epistemic/objective_world.py`) -/

/-- A value stored in the `data` dicts of facts, artifacts and states. -/
inductive Val where
  | str (s : String)
  | nat (n : Nat)
deriving DecidableEq, Repr

namespace Objective

/-- `ObjectiveFact` dataclass. -/
structure ObjectiveFact where
  fact_id : String
  tick : Nat
  fact_type : String
  subject : String
  data : List (String × Val)
  observers : List String
deriving DecidableEq, Repr

/-- In-memory state of `ObjectiveWorld` (the on-disk persistence of
`save_to_disk`/`_load_from_disk` is outside the model; we start from the
empty ledger a fresh data directory gives). -/
structure ObjectiveWorld where
  fact_log : List ObjectiveFact
  facts_by_tick : List (Nat × List ObjectiveFact)
  facts_by_subject : List (String × List ObjectiveFact)
  facts_by_type : List (String × List ObjectiveFact)
  current_character_states : List (String × List (String × Val))
  current_location_states : List (String × List (String × Val))
deriving DecidableEq, Repr

def ObjectiveWorld.init : ObjectiveWorld := ⟨[], [], [], [], [], []⟩

/-- The id format string of `record_fact`:
`f"{fact_type}_{subject}_{tick}_{len(self.fact_log)}"`. -/
def mkFactId (fact_type subject : String) (tick idx : Nat) : String :=
  fact_type ++ "_" ++ subject ++ "_" ++ natStr tick ++ "_" ++ natStr idx

theorem mkFactId_inj_idx {t₁ s₁ t₂ s₂ : String} {k₁ k₂ i₁ i₂ : Nat}
    (h : mkFactId t₁ s₁ k₁ i₁ = mkFactId t₂ s₂ k₂ i₂) : i₁ = i₂ := by
  unfold mkFactId at h
  exact suffix_id_inj _ _ _ _ h

/-- `ObjectiveWorld._update_current_state`.  The source indexes
`fact.data["destination"]`, which it only reaches for facts it created with
that key present; the model totalises the lookup with a default. -/
def updateCurrentState (w : ObjectiveWorld) (fact : ObjectiveFact) :
    ObjectiveWorld :=
  if fact.fact_type = "character_moved" then
    let st : List (String × Val) :=
      [("location", (lookupA fact.data "destination").getD (.str "")),
       ("last_moved_tick", .nat fact.tick)]
    { w with current_character_states :=
        insertA w.current_character_states fact.subject st }
  else if fact.fact_type = "character_state_changed" then
    let cur := (lookupA w.current_character_states fact.subject).getD []
    let st := fact.data.foldl (fun acc p => insertA acc p.1 p.2) cur
    { w with current_character_states :=
        insertA w.current_character_states fact.subject st }
  else w

/-- `ObjectiveWorld.record_fact`. -/
def ObjectiveWorld.recordFact (w : ObjectiveWorld) (tick : Nat)
    (fact_type subject : String) (data : List (String × Val))
    (observers : List String) : ObjectiveWorld × ObjectiveFact :=
  let fact_id := mkFactId fact_type subject tick w.fact_log.length
  let fact : ObjectiveFact := ⟨fact_id, tick, fact_type, subject, data, observers⟩
  let w₁ : ObjectiveWorld :=
    { w with
      fact_log := w.fact_log ++ [fact]
      facts_by_tick := appendAt w.facts_by_tick tick fact
      facts_by_subject := appendAt w.facts_by_subject subject fact
      facts_by_type := appendAt w.facts_by_type fact_type fact }
  (updateCurrentState w₁ fact, fact)

/-- Arguments of one `record_fact` call. -/
structure RecordCall where
  tick : Nat
  fact_type : String
  subject : String
  data : List (String × Val)
  observers : List String
deriving DecidableEq, Repr

/-- A sequence of `record_fact` calls. -/
def runRecords (w : ObjectiveWorld) : List RecordCall → ObjectiveWorld
  | [] => w
  | c :: rest =>
    runRecords (w.recordFact c.tick c.fact_type c.subject c.data c.observers).1 rest

theorem fact_log_updateCurrentState (w : ObjectiveWorld) (f : ObjectiveFact) :
    (updateCurrentState w f).fact_log = w.fact_log := by
  unfold updateCurrentState
  split
  · rfl
  · split <;> rfl

theorem fact_log_recordFact (w : ObjectiveWorld) (tick : Nat)
    (ft s : String) (d : List (String × Val)) (o : List String) :
    (w.recordFact tick ft s d o).1.fact_log
      = w.fact_log ++ [(w.recordFact tick ft s d o).2] := by
  unfold ObjectiveWorld.recordFact
  rw [fact_log_updateCurrentState]

theorem runRecords_append_only (calls : List RecordCall) :
    ∀ w : ObjectiveWorld, ∃ ext, (runRecords w calls).fact_log = w.fact_log ++ ext := by
  induction calls with
  | nil => intro w; exact ⟨[], by simp [runRecords]⟩
  | cons c rest ih =>
    intro w
    obtain ⟨ext, hext⟩ :=
      ih (w.recordFact c.tick c.fact_type c.subject c.data c.observers).1
    refine ⟨(w.recordFact c.tick c.fact_type c.subject c.data c.observers).2 :: ext, ?_⟩
    rw [runRecords, hext, fact_log_recordFact]
    simp

/-- Ledger invariant: the fact at position `i` carries an id whose final
index component is `i`. -/
def idsIndexed (l : List ObjectiveFact) : Prop :=
  ∀ i (h : i < l.length), ∃ t s k, (l.get ⟨i, h⟩).fact_id = mkFactId t s k i

theorem idsIndexed_recordFact {w : ObjectiveWorld} (hw : idsIndexed w.fact_log)
    (tick : Nat) (ft s : String) (d : List (String × Val)) (o : List String) :
    idsIndexed (w.recordFact tick ft s d o).1.fact_log := by
  rw [fact_log_recordFact]
  intro i hi
  rcases Nat.lt_or_ge i w.fact_log.length with h | h
  · obtain ⟨t', s', k', hid⟩ := hw i h
    refine ⟨t', s', k', ?_⟩
    rw [List.get_append _ h] at *
    exact hid
  · have hlen : i = w.fact_log.length := by
      simp only [List.length_append, List.length_cons, List.length_nil] at hi
      omega
    subst hlen
    refine ⟨ft, s, tick, ?_⟩
    have : (w.fact_log ++ [(w.recordFact tick ft s d o).2]).get ⟨w.fact_log.length, hi⟩
        = (w.recordFact tick ft s d o).2 := by
      rw [List.get_append_right] <;> simp
    rw [this]
    rfl

theorem idsIndexed_runRecords (calls : List RecordCall) :
    ∀ w : ObjectiveWorld, idsIndexed w.fact_log →
      idsIndexed (runRecords w calls).fact_log := by
  induction calls with
  | nil => intro w hw; exact hw
  | cons c rest ih =>
    intro w hw
    exact ih _ (idsIndexed_recordFact hw c.tick c.fact_type c.subject c.data c.observers)

theorem runRecords_ticks (calls : List RecordCall) :
    ∀ w : ObjectiveWorld,
      (runRecords w calls).fact_log.map ObjectiveFact.tick
        = w.fact_log.map ObjectiveFact.tick ++ calls.map RecordCall.tick := by
  induction calls with
  | nil => intro w; simp [runRecords]
  | cons c rest ih =>
    intro w
    rw [runRecords, ih, fact_log_recordFact]
    simp [ObjectiveWorld.recordFact]

/-- C2 (amended): for every sequence of `record_fact` calls the ledger is
append-only (facts are never mutated or removed), all `fact_id`s are pairwise
distinct, and the ledger ticks are non-decreasing provided the calls supply
non-decreasing ticks (the code does not itself enforce tick monotonicity). -/
theorem record_fact_ledger_spec (calls : List RecordCall) :
    (∀ w : ObjectiveWorld, ∃ ext, (runRecords w calls).fact_log = w.fact_log ++ ext)
    ∧ (∀ i j (hi : i < (runRecords .init calls).fact_log.length)
        (hj : j < (runRecords .init calls).fact_log.length), i ≠ j →
        ((runRecords .init calls).fact_log.get ⟨i, hi⟩).fact_id
          ≠ ((runRecords .init calls).fact_log.get ⟨j, hj⟩).fact_id)
    ∧ (List.Chain' (· ≤ ·) (calls.map RecordCall.tick) →
        List.Chain' (· ≤ ·)
          ((runRecords .init calls).fact_log.map ObjectiveFact.tick)) := by
  refine ⟨runRecords_append_only calls, ?_, ?_⟩
  · intro i j hi hj hij heq
    have hidx : idsIndexed (runRecords .init calls).fact_log :=
      idsIndexed_runRecords calls .init (by intro i hi; simp [ObjectiveWorld.init] at hi)
    obtain ⟨t₁, s₁, k₁, h₁⟩ := hidx i hi
    obtain ⟨t₂, s₂, k₂, h₂⟩ := hidx j hj
    rw [h₁, h₂] at heq
    exact hij (mkFactId_inj_idx heq)
  · intro hmono
    rw [runRecords_ticks calls .init]
    have hinit : (ObjectiveWorld.init).fact_log = [] := rfl
    rw [hinit]
    simpa using hmono

/-- Two concrete `record_fact` calls used as evidence. -/
def demoCalls : List RecordCall :=
  [⟨1, "character_moved", "a", [("from", .str "x"), ("destination", .str "y")], []⟩,
   ⟨2, "event_occurred", "b", [], []⟩]

/-- C2 witness: on a concrete two-call sequence with non-decreasing ticks the
ids differ and the ledger ticks are non-decreasing. -/
theorem record_fact_ledger_spec_witness :
    ((runRecords .init demoCalls).fact_log.get ⟨0, by decide⟩).fact_id
      ≠ ((runRecords .init demoCalls).fact_log.get ⟨1, by decide⟩).fact_id
    ∧ List.Chain' (· ≤ ·)
        ((runRecords .init demoCalls).fact_log.map ObjectiveFact.tick) :=
  ⟨(record_fact_ledger_spec demoCalls).2.1 0 1 (by decide) (by decide) (by decide),
   (record_fact_ledger_spec demoCalls).2.2
     (by norm_num [demoCalls, List.chain'_cons, List.chain'_singleton])⟩

/-- Two `record_fact` calls whose ticks decrease: nothing stops them. -/
def nonmonoCalls : List RecordCall :=
  [⟨5, "f", "s", [], []⟩, ⟨3, "f", "s", [], []⟩]

/-- C2 counterexample: calling `record_fact` with tick 5 and then tick 3
produces a ledger whose ticks are not non-decreasing, so the claim fails for
arbitrary call sequences. -/
theorem record_fact_ticks_not_monotone :
    ¬ List.Chain' (· ≤ ·)
      ((runRecords .init nonmonoCalls).fact_log.map ObjectiveFact.tick) := by
  intro h
  have hmap : (runRecords .init nonmonoCalls).fact_log.map ObjectiveFact.tick
      = [5, 3] := by decide
  rw [hmap] at h
  simp [List.chain'_cons, List.chain'_singleton] at h

end Objective

/-! ## Layer 2: information artifacts
(`world_engine/epistemic/information_artifacts.py`) -/

namespace Artifacts

inductive ArtifactType where
  | directObservation
  | report
  | rumor
  | message
  | deduction
  | memory
deriving DecidableEq, Repr

/-- The `str` value of each `ArtifactType` enum member. -/
def ArtifactType.value : ArtifactType → String
  | .directObservation => "direct_observation"
  | .report => "report"
  | .rumor => "rumor"
  | .message => "message"
  | .deduction => "deduction"
  | .memory => "memory"

inductive ReliabilityLevel where
  | certain
  | confident
  | probable
  | uncertain
  | dubious
  | contradicted
deriving DecidableEq, Repr

/-- `InformationArtifact` dataclass. -/
structure InformationArtifact where
  artifact_id : String
  created_at_tick : Nat
  artifact_type : ArtifactType
  subject : String
  claim : String
  data : List (String × Val)
  source : String
  reliability : ReliabilityLevel
  superseded_by : Option String
  contradicts : List String
  known_by : List String
deriving DecidableEq, Repr

/-- `InformationArtifactStore` state. -/
structure InformationArtifactStore where
  artifacts : List (String × InformationArtifact)
  artifacts_by_subject : List (String × List String)
  artifacts_known_by : List (String × List String)
deriving DecidableEq, Repr

def InformationArtifactStore.init : InformationArtifactStore := ⟨[], [], []⟩

/-- The `_artifacts_known_by.setdefault(c, set()).add(aid)` pattern. -/
def addKnown (m : List (String × List String)) (c aid : String) :
    List (String × List String) :=
  match lookupA m c with
  | none => m ++ [(c, [aid])]
  | some s => insertA m c (setAdd s aid)

/-- `InformationArtifactStore.create_artifact`. -/
def createArtifact (st : InformationArtifactStore) (tick : Nat)
    (artifact_type : ArtifactType) (subject claim : String)
    (data : List (String × Val)) (source : String)
    (reliability : ReliabilityLevel) (known_by : List String) :
    InformationArtifactStore × InformationArtifact :=
  let artifact_id :=
    "artifact" ++ "_" ++ subject ++ "_" ++ natStr tick ++ "_" ++ natStr st.artifacts.length
  let artifact : InformationArtifact :=
    ⟨artifact_id, tick, artifact_type, subject, claim, data, source, reliability,
      none, [], known_by⟩
  let st₁ : InformationArtifactStore :=
    { st with
      artifacts := insertA st.artifacts artifact_id artifact
      artifacts_by_subject := appendAt st.artifacts_by_subject subject artifact_id }
  let st₂ : InformationArtifactStore :=
    { st₁ with artifacts_known_by :=
        known_by.foldl (fun acc c => addKnown acc c artifact_id) st₁.artifacts_known_by }
  (st₂, artifact)

/-- `InformationArtifactStore.share_artifact`. -/
def shareArtifact (st : InformationArtifactStore) (artifact_id character_id : String) :
    InformationArtifactStore :=
  match lookupA st.artifacts artifact_id with
  | none => st
  | some artifact =>
    let artifact' := { artifact with known_by := setAdd artifact.known_by character_id }
    let st₁ : InformationArtifactStore :=
      { st with artifacts := insertA st.artifacts artifact_id artifact' }
    { st₁ with artifacts_known_by := addKnown st₁.artifacts_known_by character_id artifact_id }

/-- `InformationArtifactStore.supersede_artifact`. -/
def supersedeArtifact (st : InformationArtifactStore) (old_id new_id : String) :
    InformationArtifactStore :=
  match lookupA st.artifacts old_id with
  | none => st
  | some old =>
    { st with artifacts :=
        insertA st.artifacts old_id { old with superseded_by := some new_id } }

/-- `InformationArtifactStore.mark_contradiction`. -/
def markContradiction (st : InformationArtifactStore)
    (artifact_id contradicts_id : String) : InformationArtifactStore :=
  let st₁ :=
    match lookupA st.artifacts artifact_id with
    | none => st
    | some a =>
      let a' := { a with contradicts := setAdd a.contradicts contradicts_id }
      { st with artifacts := insertA st.artifacts artifact_id a' }
  match lookupA st₁.artifacts contradicts_id with
  | none => st₁
  | some other =>
    let other' := { other with contradicts := setAdd other.contradicts artifact_id }
    { st₁ with artifacts := insertA st₁.artifacts contradicts_id other' }

theorem lookupA_insertA_self {α : Type} (l : List (String × α)) (k : String) (v : α) :
    lookupA (insertA l k v) k = some v := by
  induction l with
  | nil => simp [lookupA, insertA, List.find?]
  | cons p rest ih =>
    obtain ⟨k', v'⟩ := p
    by_cases h : k' = k
    · simp [insertA, h, lookupA, List.find?]
    · simp only [insertA, if_neg h]
      simpa [lookupA, List.find?, h] using ih

theorem lookupA_insertA_ne {α : Type} (l : List (String × α)) {k k' : String} (v : α)
    (h : k' ≠ k) : lookupA (insertA l k v) k' = lookupA l k' := by
  induction l with
  | nil => simp [lookupA, insertA, List.find?, Ne.symm h]
  | cons p rest ih =>
    obtain ⟨k₀, v₀⟩ := p
    by_cases hk : k₀ = k
    · subst hk
      simp [insertA, lookupA, List.find?, Ne.symm h]
    · simp only [insertA, if_neg hk]
      by_cases hk' : k₀ = k'
      · subst hk'
        simp [lookupA, List.find?]
      · rw [lookupA, List.find?_cons_of_neg _ (by simp [hk']),
          lookupA, List.find?_cons_of_neg _ (by simp [hk'])]
        exact ih

/-- C10 (amended): `share_artifact` with a missing artifact id and
`supersede_artifact` with a missing `old_id` return normally and leave the
store untouched, as does `mark_contradiction` when both ids are missing; but
`mark_contradiction` with exactly one existing id — in either argument
position — still returns normally and adds the missing id to the
`contradicts` set of the artifact that does exist, so it is not a no-op on
the store. -/
theorem missing_artifact_id_spec :
    (∀ (st : InformationArtifactStore) (aid cid : String),
      lookupA st.artifacts aid = none → shareArtifact st aid cid = st)
    ∧ (∀ (st : InformationArtifactStore) (oldId newId : String),
      lookupA st.artifacts oldId = none → supersedeArtifact st oldId newId = st)
    ∧ (∀ (st : InformationArtifactStore) (a b : String),
      lookupA st.artifacts a = none → lookupA st.artifacts b = none →
        markContradiction st a b = st)
    ∧ (∀ (st : InformationArtifactStore) (a b : String) (art : InformationArtifact),
      lookupA st.artifacts a = none → lookupA st.artifacts b = some art →
        lookupA (markContradiction st a b).artifacts b
          = some { art with contradicts := setAdd art.contradicts a })
    ∧ (∀ (st : InformationArtifactStore) (a b : String) (art : InformationArtifact),
      lookupA st.artifacts a = some art → lookupA st.artifacts b = none →
        lookupA (markContradiction st a b).artifacts a
          = some { art with contradicts := setAdd art.contradicts b }) := by
  refine ⟨?_, ?_, ?_, ?_, ?_⟩
  · intro st aid cid h
    unfold shareArtifact
    rw [h]
  · intro st oldId newId h
    unfold supersedeArtifact
    rw [h]
  · intro st a b ha hb
    simp [markContradiction, ha, hb]
  · intro st a b art ha hb
    simp [markContradiction, ha, hb, lookupA_insertA_self]
  · intro st a b art ha hb
    have hne : b ≠ a := by
      intro h
      subst h
      rw [ha] at hb
      exact Option.noConfusion hb
    simp [markContradiction, ha, lookupA_insertA_ne _ _ hne, hb, lookupA_insertA_self]

/-- A store holding a single concrete artifact, with id `artifact_s_0_0`. -/
def demoStore : InformationArtifactStore × InformationArtifact :=
  createArtifact .init 0 .report "s" "c" [] "src" .uncertain ["alice"]

/-- C10 counterexample: calling `mark_contradiction` with a first artifact id
that does not exist in the store still mutates the stored artifact named by
its second argument (its `contradicts` set gains the missing id), so such a
call is not a no-op on the store. -/
theorem mark_contradiction_missing_id_mutates :
    ((lookupA (markContradiction demoStore.1 "ghost" "artifact_s_0_0").artifacts
        "artifact_s_0_0").map InformationArtifact.contradicts = some ["ghost"])
    ∧ ((lookupA demoStore.1.artifacts "artifact_s_0_0").map
        InformationArtifact.contradicts = some []) := by
  decide

/-- C10 witness: the no-op cases at concrete inputs, and the one-sided
mutation of `mark_contradiction` at the concrete store, with the missing id
in either argument position. -/
theorem missing_artifact_id_spec_witness :
    shareArtifact .init "a1" "alice" = .init
    ∧ supersedeArtifact .init "a1" "a2" = .init
    ∧ markContradiction .init "a1" "a2" = .init
    ∧ lookupA (markContradiction demoStore.1 "ghost" "artifact_s_0_0").artifacts
        "artifact_s_0_0"
      = some { demoStore.2 with contradicts := setAdd demoStore.2.contradicts "ghost" }
    ∧ lookupA (markContradiction demoStore.1 "artifact_s_0_0" "ghost").artifacts
        "artifact_s_0_0"
      = some { demoStore.2 with contradicts := setAdd demoStore.2.contradicts "ghost" } :=
  ⟨missing_artifact_id_spec.1 _ _ _ (by decide),
   missing_artifact_id_spec.2.1 _ _ _ (by decide),
   missing_artifact_id_spec.2.2.1 _ _ _ (by decide) (by decide),
   missing_artifact_id_spec.2.2.2.1 _ _ _ demoStore.2 (by decide) (by decide),
   missing_artifact_id_spec.2.2.2.2 _ _ _ demoStore.2 (by decide) (by decide)⟩

end Artifacts

/-! ## Layer 3: belief graph (`world_engine/epistemic/belief_graph.py`) -/

namespace Beliefs

inductive BeliefState where
  | convinced
  | confident
  | leaningTrue
  | uncertain
  | leaningFalse
  | skeptical
  | rejected
deriving DecidableEq, Repr

/-- `Belief` dataclass. -/
structure Belief where
  character_id : String
  artifact_id : String
  belief_state : BeliefState
  confidence : ℚ
  justification : String
  based_on : List String
  formed_at_tick : Nat
  last_updated_tick : Nat
  times_reinforced : Nat
  times_challenged : Nat
deriving DecidableEq, Repr

/-- `BeliefGraph` state: `beliefs` is character → artifact → belief,
`contradictions` is character → set of artifact-id pairs. -/
structure BeliefGraph where
  beliefs : List (String × List (String × Belief))
  contradictions : List (String × List (String × String))
deriving DecidableEq, Repr

def BeliefGraph.init : BeliefGraph := ⟨[], []⟩

/-- `BeliefGraph._reliability_to_score`. -/
def reliabilityToScore : Artifacts.ReliabilityLevel → ℚ
  | .certain => 1
  | .confident => 85/100
  | .probable => 7/10
  | .uncertain => 5/10
  | .dubious => 3/10
  | .contradicted => 1/10

/-- `BeliefGraph._score_to_belief_state`. -/
def scoreToBeliefState (score : ℚ) : BeliefState × ℚ :=
  if 9/10 < score then (.convinced, score)
  else if 7/10 < score then (.confident, score)
  else if 55/100 < score then (.leaningTrue, score)
  else if 45/100 < score then (.uncertain, score)
  else if 3/10 < score then (.leaningFalse, score)
  else if 1/10 < score then (.skeptical, score)
  else (.rejected, score)

theorem scoreToBeliefState_snd (score : ℚ) : (scoreToBeliefState score).2 = score := by
  unfold scoreToBeliefState
  split_ifs <;> rfl

/-- `BeliefGraph._adjust_for_contradiction`. -/
def adjustForContradiction : BeliefState → BeliefState
  | .convinced => .confident
  | .confident => .leaningTrue
  | .leaningTrue => .uncertain
  | .uncertain => .uncertain
  | .leaningFalse => .skeptical
  | .skeptical => .rejected
  | .rejected => .rejected

/-- `BeliefGraph._find_contradictions`: the source compares the new
artifact's subject with `belief.artifact_id.split('_')[1]` (its "rough
heuristic" for same-subject) and requires the held artifact id to appear in
`new_artifact.contradicts`.  The `[1]` index is totalised with a default;
every artifact id the system generates has at least four segments. -/
def findContradictions (g : BeliefGraph) (character_id : String)
    (new_artifact : Artifacts.InformationArtifact) : List String :=
  match lookupA g.beliefs character_id with
  | none => []
  | some bmap =>
    ((bmap.filter fun p =>
        decide (new_artifact.subject = (splitUS p.2.artifact_id).getD 1 "")
          && decide (p.1 ∈ new_artifact.contradicts)).map fun p => p.1)

/-- `BeliefGraph.form_belief`. -/
def formBelief (g : BeliefGraph) (character_id : String)
    (artifact : Artifacts.InformationArtifact) (current_tick : Nat)
    (trust_in_source base_skepticism : ℚ) : BeliefGraph × Belief :=
  let reliability_score := reliabilityToScore artifact.reliability
  let combined_score :=
    (reliability_score * (5/10) + trust_in_source * (5/10)) * (1 - base_skepticism)
  let sc := scoreToBeliefState combined_score
  let existing_contradictions := findContradictions g character_id artifact
  let confidence := if existing_contradictions ≠ [] then sc.2 * (7/10) else sc.2
  let belief_state :=
    if existing_contradictions ≠ [] then adjustForContradiction sc.1 else sc.1
  let justification :=
    if existing_contradictions ≠ [] then
      "Conflicts with " ++ natStr existing_contradictions.length ++ " existing beliefs"
    else
      "Based on " ++ artifact.artifact_type.value ++ " from " ++ artifact.source
  let belief : Belief :=
    ⟨character_id, artifact.artifact_id, belief_state, confidence, justification,
      [], current_tick, current_tick, 0, 0⟩
  let bmap := (lookupA g.beliefs character_id).getD []
  let g₁ : BeliefGraph :=
    { g with beliefs :=
        insertA g.beliefs character_id (insertA bmap artifact.artifact_id belief) }
  let g₂ : BeliefGraph :=
    if existing_contradictions ≠ [] then
      let cset := (lookupA g₁.contradictions character_id).getD []
      let cset' := existing_contradictions.foldl
        (fun acc cid => setAdd acc (artifact.artifact_id, cid)) cset
      { g₁ with contradictions := insertA g₁.contradictions character_id cset' }
    else g₁
  (g₂, belief)

/-- `BeliefGraph.update_belief`. -/
def updateBelief (g : BeliefGraph) (character_id artifact_id : String)
    (new_evidence : Artifacts.InformationArtifact) (current_tick : Nat)
    (reinforces : Bool) : BeliefGraph × Option Belief :=
  match lookupA g.beliefs character_id with
  | none => (g, none)
  | some bmap =>
    match lookupA bmap artifact_id with
    | none => (g, none)
    | some belief =>
      let belief₁ :=
        if reinforces then
          let c := min 1 (belief.confidence + 1/10)
          let bs :=
            if 9/10 < c ∧ belief.belief_state = BeliefState.confident then
              BeliefState.convinced
            else if 7/10 < c ∧ belief.belief_state = BeliefState.leaningTrue then
              BeliefState.confident
            else belief.belief_state
          { belief with
            confidence := c
            times_reinforced := belief.times_reinforced + 1
            based_on := belief.based_on ++ [new_evidence.artifact_id]
            belief_state := bs }
        else
          let c := max 0 (belief.confidence - 15/100)
          let bs₁ :=
            if c < 3/10 ∧ belief.belief_state = BeliefState.confident then
              BeliefState.leaningTrue
            else if c < 5/10 ∧ belief.belief_state = BeliefState.convinced then
              BeliefState.confident
            else belief.belief_state
          let tc := belief.times_challenged + 1
          let bs₂ := if 3 ≤ tc then BeliefState.uncertain else bs₁
          { belief with
            confidence := c
            times_challenged := tc
            belief_state := bs₂ }
      let belief₂ := { belief₁ with last_updated_tick := current_tick }
      ({ g with beliefs :=
          insertA g.beliefs character_id (insertA bmap artifact_id belief₂) },
        some belief₂)

/-- Arguments of one `update_belief` call. -/
structure UpdateCall where
  character_id : String
  artifact_id : String
  new_evidence : Artifacts.InformationArtifact
  tick : Nat
  reinforces : Bool
deriving DecidableEq, Repr

def runUpdates (g : BeliefGraph) : List UpdateCall → BeliefGraph
  | [] => g
  | c :: rest =>
    runUpdates (updateBelief g c.character_id c.artifact_id c.new_evidence
      c.tick c.reinforces).1 rest

end Beliefs

theorem lookupA_mem {α : Type} {l : List (String × α)} {k : String} {v : α}
    (h : lookupA l k = some v) : (k, v) ∈ l := by
  induction l with
  | nil => simp [lookupA, List.find?] at h
  | cons p rest ih =>
    obtain ⟨k', v'⟩ := p
    by_cases hk : k' = k
    · subst hk
      rw [lookupA, List.find?_cons_of_pos _ (by simp)] at h
      simp only [Option.map_some'] at h
      obtain rfl := Option.some.inj h
      exact List.mem_cons_self _ _
    · rw [lookupA, List.find?_cons_of_neg _ (by simp [hk])] at h
      exact List.mem_cons_of_mem _ (ih h)

theorem mem_insertA {α : Type} {l : List (String × α)} {k : String} {v : α}
    {p : String × α} (h : p ∈ insertA l k v) : p = (k, v) ∨ p ∈ l := by
  induction l with
  | nil =>
    simp [insertA] at h
    exact Or.inl h
  | cons q rest ih =>
    obtain ⟨k', v'⟩ := q
    by_cases hk : k' = k
    · simp only [insertA, if_pos hk, List.mem_cons] at h
      rcases h with h | h
      · exact Or.inl h
      · exact Or.inr (List.mem_cons_of_mem _ h)
    · simp only [insertA, if_neg hk, List.mem_cons] at h
      rcases h with h | h
      · exact Or.inr (by simp [h])
      · rcases ih h with h' | h'
        · exact Or.inl h'
        · exact Or.inr (List.mem_cons_of_mem _ h')

theorem mem_setAdd_self {α : Type} [DecidableEq α] (l : List α) (x : α) :
    x ∈ setAdd l x := by
  unfold setAdd
  split_ifs with h
  · exact h
  · simp

theorem mem_setAdd_of_mem {α : Type} [DecidableEq α] {l : List α} {y : α} (x : α)
    (h : y ∈ l) : y ∈ setAdd l x := by
  unfold setAdd
  split_ifs
  · exact h
  · simp [h]

theorem mem_foldl_setAdd_of_mem {α β : Type} [DecidableEq α] (f : β → α)
    (l : List β) : ∀ (init : List α) {y : α}, y ∈ init →
      y ∈ l.foldl (fun acc b => setAdd acc (f b)) init := by
  induction l with
  | nil => intro init y h; exact h
  | cons b rest ih => intro init y h; exact ih _ (mem_setAdd_of_mem _ h)

theorem mem_foldl_setAdd {α β : Type} [DecidableEq α] (f : β → α) (l : List β) :
    ∀ (init : List α) {b : β}, b ∈ l →
      f b ∈ l.foldl (fun acc x => setAdd acc (f x)) init := by
  induction l with
  | nil => intro init b h; simp at h
  | cons c rest ih =>
    intro init b h
    rcases List.mem_cons.mp h with h | h
    · subst h
      exact mem_foldl_setAdd_of_mem f rest _ (mem_setAdd_self _ _)
    · exact ih _ h

namespace Beliefs

/-- All confidences in the graph lie in `[0, 1]`. -/
def graphConfsIn01 (g : BeliefGraph) : Prop :=
  ∀ p ∈ g.beliefs, ∀ q ∈ p.2, 0 ≤ q.2.confidence ∧ q.2.confidence ≤ 1

theorem updateBelief_preserves_confs {g : BeliefGraph} (hg : graphConfsIn01 g)
    (c aid : String) (ev : Artifacts.InformationArtifact) (t : Nat) (r : Bool) :
    graphConfsIn01 (updateBelief g c aid ev t r).1 := by
  cases hm : lookupA g.beliefs c with
  | none => simpa [updateBelief, hm] using hg
  | some bmap =>
    cases hb : lookupA bmap aid with
    | none => simpa [updateBelief, hm, hb] using hg
    | some belief =>
      obtain ⟨h0, h1⟩ := hg _ (lookupA_mem hm) _ (lookupA_mem hb)
      simp only [updateBelief, hm, hb]
      intro p hp q hq
      rcases mem_insertA hp with hpEq | hp'
      · rw [hpEq] at hq
        rcases mem_insertA hq with hqEq | hq'
        · rw [hqEq]
          cases r with
          | true =>
            exact ⟨le_min (by norm_num) (by linarith), min_le_left _ _⟩
          | false =>
            exact ⟨le_max_left _ _, max_le (by norm_num) (by linarith)⟩
        · exact hg _ (lookupA_mem hm) _ hq'
      · exact hg _ hp' _ hq

theorem runUpdates_preserves_confs {g : BeliefGraph} (hg : graphConfsIn01 g) :
    ∀ calls : List UpdateCall, graphConfsIn01 (runUpdates g calls) := by
  intro calls
  induction calls generalizing g with
  | nil => exact hg
  | cons c rest ih =>
    exact ih (updateBelief_preserves_confs hg c.character_id c.artifact_id
      c.new_evidence c.tick c.reinforces)

theorem updateBelief_challenge_eq (g : BeliefGraph) (bmap : List (String × Belief))
    (belief : Belief) (c aid : String) (ev : Artifacts.InformationArtifact) (t : Nat)
    (hm : lookupA g.beliefs c = some bmap) (hb : lookupA bmap aid = some belief) :
    (updateBelief g c aid ev t false).2 = some
      { belief with
        confidence := max 0 (belief.confidence - 15/100)
        times_challenged := belief.times_challenged + 1
        belief_state :=
          if 3 ≤ belief.times_challenged + 1 then BeliefState.uncertain
          else if max 0 (belief.confidence - 15/100) < 3/10
              ∧ belief.belief_state = BeliefState.confident then BeliefState.leaningTrue
          else if max 0 (belief.confidence - 15/100) < 5/10
              ∧ belief.belief_state = BeliefState.convinced then BeliefState.confident
          else belief.belief_state
        last_updated_tick := t } := by
  simp only [updateBelief, hm, hb]
  rfl

/-- C3: along any sequence of `update_belief` calls every confidence stays in
`[0, 1]`; one reinforcement sets confidence to `min 1 (conf + 0.1)` and one
challenge to `max 0 (conf - 0.15)`; and after any challenge whose result has
`times_challenged ≥ 3` the belief state is `Uncertain`, whatever the
confidence. -/
theorem update_belief_spec :
    (∀ g : BeliefGraph, graphConfsIn01 g →
      ∀ calls : List UpdateCall, graphConfsIn01 (runUpdates g calls))
    ∧ (∀ (g : BeliefGraph) (bmap : List (String × Belief)) (c aid : String)
        (ev : Artifacts.InformationArtifact) (t : Nat) (belief : Belief),
        lookupA g.beliefs c = some bmap → lookupA bmap aid = some belief →
        (updateBelief g c aid ev t true).2.map Belief.confidence
            = some (min 1 (belief.confidence + 1/10))
          ∧ (updateBelief g c aid ev t false).2.map Belief.confidence
            = some (max 0 (belief.confidence - 15/100)))
    ∧ (∀ (g : BeliefGraph) (c aid : String) (ev : Artifacts.InformationArtifact)
        (t : Nat) (b' : Belief),
        (updateBelief g c aid ev t false).2 = some b' →
        3 ≤ b'.times_challenged → b'.belief_state = BeliefState.uncertain) := by
  refine ⟨fun g hg => runUpdates_preserves_confs hg, ?_, ?_⟩
  · intro g bmap c aid ev t belief hm hb
    constructor
    · simp [updateBelief, hm, hb]
    · simp [updateBelief, hm, hb]
  · intro g c aid ev t b' h h3
    cases hm : lookupA g.beliefs c with
    | none => rw [updateBelief, hm] at h; exact absurd h (by simp)
    | some bmap =>
      cases hb : lookupA bmap aid with
      | none => rw [updateBelief, hm] at h; simp only [hb] at h; exact absurd h (by simp)
      | some belief =>
        rw [updateBelief_challenge_eq g bmap belief c aid ev t hm hb] at h
        obtain rfl := (Option.some.inj h).symm
        have h3' : 3 ≤ belief.times_challenged + 1 := h3
        exact if_pos h3'

def demoEvidence : Artifacts.InformationArtifact :=
  ⟨"e", 0, .report, "s", "c", [], "src", .probable, none, [], []⟩

def demoBelief0 : Belief := ⟨"a", "x", .convinced, 1/2, "j", [], 0, 0, 0, 2⟩

def demoGraph : BeliefGraph := ⟨[("a", [("x", demoBelief0)])], []⟩

/-- The belief produced by challenging `demoBelief0` a third time. -/
def demoChallengeResult : Belief := ⟨"a", "x", .uncertain, 7/20, "j", [], 0, 1, 0, 3⟩

/-- C3 witness: a concrete third challenge keeps confidence in `[0,1]`,
subtracts 0.15, and flips the state to `Uncertain`. -/
theorem update_belief_spec_witness :
    graphConfsIn01 (runUpdates demoGraph [⟨"a", "x", demoEvidence, 1, false⟩])
    ∧ (updateBelief demoGraph "a" "x" demoEvidence 1 false).2.map Belief.confidence
        = some (max 0 (demoBelief0.confidence - 15/100))
    ∧ demoChallengeResult.belief_state = BeliefState.uncertain := by
  refine ⟨update_belief_spec.1 demoGraph ?_ _,
    (update_belief_spec.2.1 demoGraph [("x", demoBelief0)] "a" "x" demoEvidence 1
      demoBelief0 rfl rfl).2,
    update_belief_spec.2.2 demoGraph "a" "x" demoEvidence 1 demoChallengeResult
      ?_ ?_⟩
  · norm_num [graphConfsIn01, demoGraph, demoBelief0]
  · rw [updateBelief_challenge_eq demoGraph [("x", demoBelief0)] demoBelief0
      "a" "x" demoEvidence 1 rfl rfl]
    norm_num [demoChallengeResult, demoBelief0]
  · norm_num [demoChallengeResult]

/-- C4 (amended): `form_belief` gives the new belief confidence
`(reliability_score*0.5 + trust*0.5) * (1 - base_skepticism)` and the
threshold-derived state; when `_find_contradictions` flags held beliefs —
which it does when the held artifact id's second underscore-separated token
equals the new artifact's subject (the code's same-subject heuristic; the
exact subject only when subjects contain no underscore) and the held id is in
`new_artifact.contradicts` — the confidence is further multiplied by 0.7, the
state is weakened one step via `_adjust_for_contradiction`, and every
contradiction pair is recorded for the actor. -/
theorem form_belief_spec (g : BeliefGraph) (character_id : String)
    (artifact : Artifacts.InformationArtifact) (tick : Nat) (trust skept : ℚ) :
    (findContradictions g character_id artifact = [] →
      (formBelief g character_id artifact tick trust skept).2.confidence
        = (reliabilityToScore artifact.reliability * (5/10) + trust * (5/10)) * (1 - skept)
      ∧ (formBelief g character_id artifact tick trust skept).2.belief_state
        = (scoreToBeliefState
            ((reliabilityToScore artifact.reliability * (5/10) + trust * (5/10))
              * (1 - skept))).1)
    ∧ (findContradictions g character_id artifact ≠ [] →
      (formBelief g character_id artifact tick trust skept).2.confidence
        = (reliabilityToScore artifact.reliability * (5/10) + trust * (5/10))
            * (1 - skept) * (7/10)
      ∧ (formBelief g character_id artifact tick trust skept).2.belief_state
        = adjustForContradiction (scoreToBeliefState
            ((reliabilityToScore artifact.reliability * (5/10) + trust * (5/10))
              * (1 - skept))).1
      ∧ ∀ cid ∈ findContradictions g character_id artifact,
          (artifact.artifact_id, cid) ∈
            (lookupA (formBelief g character_id artifact tick trust skept).1.contradictions
              character_id).getD []) := by
  constructor
  · intro h
    constructor
    · simp [formBelief, h, scoreToBeliefState_snd]
    · simp [formBelief, h]
  · intro h
    refine ⟨?_, ?_, ?_⟩
    · simp [formBelief, h, scoreToBeliefState_snd]
    · simp [formBelief, h]
    · intro cid hcid
      simp [formBelief, h, Artifacts.lookupA_insertA_self]
      exact mem_foldl_setAdd _ _ _ hcid

/-- A held belief whose artifact id encodes the underscore-containing subject
`b_1` (id format `artifact_{subject}_{tick}_{idx}`). -/
def oldArtifactId : String := "artifact_b_1_0_0"

def heldBelief : Belief := ⟨"ch", oldArtifactId, .confident, 8/10, "j", [], 0, 0, 0, 0⟩

def heldGraph : BeliefGraph := ⟨[("ch", [(oldArtifactId, heldBelief)])], []⟩

/-- A new artifact about the same subject `b_1` that explicitly contradicts
the held artifact. -/
def contraArtifact : Artifacts.InformationArtifact :=
  ⟨"artifact_b_1_1_1", 1, .report, "b_1", "claim", [], "src", .certain, none,
    [oldArtifactId], ["ch"]⟩

/-- C4 counterexample: the actor holds a belief about subject `b_1`
(artifact `artifact_b_1_0_0`), and the new artifact about the same subject
`b_1` lists that artifact in `contradicts`; yet because the code's heuristic
compares the subject with `artifact_id.split('_')[1] = "b"`, no contradiction
is detected: the confidence is 1, not 0.7, the state is not weakened, and no
contradiction pair is recorded. -/
theorem form_belief_same_subject_counterexample :
    contraArtifact.subject = "b_1"
    ∧ (splitUS oldArtifactId).getD 1 "" = "b"
    ∧ oldArtifactId ∈ contraArtifact.contradicts
    ∧ (formBelief heldGraph "ch" contraArtifact 1 1 0).2.confidence = 1
    ∧ ¬ (formBelief heldGraph "ch" contraArtifact 1 1 0).2.confidence = 7/10
    ∧ (formBelief heldGraph "ch" contraArtifact 1 1 0).2.belief_state = .convinced
    ∧ lookupA (formBelief heldGraph "ch" contraArtifact 1 1 0).1.contradictions "ch"
        = none := by
  have hfc : findContradictions heldGraph "ch" contraArtifact = [] := rfl
  have hrel : contraArtifact.reliability = Artifacts.ReliabilityLevel.certain := rfl
  refine ⟨rfl, rfl, by decide, ?_, ?_, ?_, ?_⟩
  · simp [formBelief, hfc, scoreToBeliefState_snd, hrel]
    norm_num [reliabilityToScore]
  · simp [formBelief, hfc, scoreToBeliefState_snd, hrel]
    norm_num [reliabilityToScore]
  · simp [formBelief, hfc, hrel]
    norm_num [reliabilityToScore, scoreToBeliefState]
  · simp [formBelief, hfc, heldGraph, lookupA, List.find?]

/-- A held belief whose artifact id encodes the underscore-free subject `b`. -/
def heldBeliefB : Belief := ⟨"ch", "artifact_b_2_3", .confident, 8/10, "j", [], 0, 0, 0, 0⟩

def heldGraphB : BeliefGraph := ⟨[("ch", [("artifact_b_2_3", heldBeliefB)])], []⟩

def contraArtifactB : Artifacts.InformationArtifact :=
  ⟨"artifact_b_5_7", 5, .report, "b", "claim", [], "src", .certain, none,
    ["artifact_b_2_3"], ["ch"]⟩

/-- C4 witness: for an underscore-free subject the contradiction fires — the
confidence is multiplied by 0.7 and the pair is recorded. -/
theorem form_belief_spec_witness :
    (formBelief heldGraphB "ch" contraArtifactB 5 1 0).2.confidence
      = (reliabilityToScore contraArtifactB.reliability * (5/10) + 1 * (5/10))
          * (1 - 0) * (7/10)
    ∧ ("artifact_b_5_7", "artifact_b_2_3")
        ∈ (lookupA (formBelief heldGraphB "ch" contraArtifactB 5 1 0).1.contradictions
            "ch").getD [] := by
  have h := (form_belief_spec heldGraphB "ch" contraArtifactB 5 1 0).2 (by decide)
  exact ⟨h.1, h.2.2 "artifact_b_2_3" (by decide)⟩

theorem findContradictions_nil_of_no_contradicts (g : BeliefGraph) (c : String)
    (art : Artifacts.InformationArtifact) (h : art.contradicts = []) :
    findContradictions g c art = [] := by
  unfold findContradictions
  cases lookupA g.beliefs c with
  | none => rfl
  | some bmap => simp [h]

end Beliefs

/-! ## Perception system (`world_engine/epistemic/perception.py`) -/

namespace Perception

/-- Rendering of a `data` value inside a Python f-string (an absent
`dict.get` renders as `None`). -/
def valRender : Option Val → String
  | none => "None"
  | some (.str s) => s
  | some (.nat n) => natStr n

def valStr : Val → String
  | .str s => s
  | .nat n => natStr n

/-- `PerceptionSystem._generate_claim`. -/
def generateClaim (fact : Objective.ObjectiveFact) : String :=
  if fact.fact_type = "character_moved" then
    fact.subject ++ " moved to " ++ valRender (lookupA fact.data "destination")
  else if fact.fact_type = "event_occurred" then
    "Event: " ++ valStr ((lookupA fact.data "title").getD (.str "Something happened"))
  else
    fact.fact_type ++ " involving " ++ fact.subject

/-- `PerceptionSystem.process_direct_observation`: a CERTAIN artifact for the
observer, at the fact's own tick. -/
def processDirectObservation (store : Artifacts.InformationArtifactStore)
    (fact : Objective.ObjectiveFact) (observer : String) :
    Artifacts.InformationArtifactStore × Artifacts.InformationArtifact :=
  Artifacts.createArtifact store fact.tick .directObservation fact.subject
    (generateClaim fact) fact.data observer .certain [observer]

/-- `PerceptionSystem.process_report`. -/
def processReport (store : Artifacts.InformationArtifactStore)
    (fact : Objective.ObjectiveFact) (reporter recipient : String)
    (reporter_reliability : ℚ) :
    Artifacts.InformationArtifactStore × Artifacts.InformationArtifact :=
  let reliability :=
    if 9/10 < reporter_reliability then Artifacts.ReliabilityLevel.confident
    else if 7/10 < reporter_reliability then Artifacts.ReliabilityLevel.probable
    else Artifacts.ReliabilityLevel.uncertain
  Artifacts.createArtifact store (fact.tick + 1) .report fact.subject
    (reporter ++ " says: " ++ generateClaim fact) fact.data reporter reliability
    [recipient]

/-- C8: `process_report` creates the artifact at `fact.tick + 1`; its
reliability is Confident when the reporter reliability exceeds 0.9, Probable
when it exceeds 0.7 (but not 0.9), and Uncertain otherwise; and it is known
by exactly the recipient. -/
theorem process_report_spec (store : Artifacts.InformationArtifactStore)
    (fact : Objective.ObjectiveFact) (reporter recipient : String) (rr : ℚ) :
    (processReport store fact reporter recipient rr).2.created_at_tick = fact.tick + 1
    ∧ (9/10 < rr →
        (processReport store fact reporter recipient rr).2.reliability
          = Artifacts.ReliabilityLevel.confident)
    ∧ (¬ 9/10 < rr → 7/10 < rr →
        (processReport store fact reporter recipient rr).2.reliability
          = Artifacts.ReliabilityLevel.probable)
    ∧ (¬ 9/10 < rr → ¬ 7/10 < rr →
        (processReport store fact reporter recipient rr).2.reliability
          = Artifacts.ReliabilityLevel.uncertain)
    ∧ (processReport store fact reporter recipient rr).2.known_by = [recipient] := by
  refine ⟨rfl, ?_, ?_, ?_, rfl⟩
  · intro h
    simp [processReport, Artifacts.createArtifact, h]
  · intro h1 h2
    simp [processReport, Artifacts.createArtifact, h1, h2]
  · intro h1 h2
    simp [processReport, Artifacts.createArtifact, h1, h2]

/-- A concrete movement fact for witnesses. -/
def demoFact : Objective.ObjectiveFact :=
  ⟨"character_moved_s_3_0", 3, "character_moved", "s",
    [("from", .str "x"), ("destination", .str "y")], []⟩

/-- C8 witness: at reporter reliability 0.95 the artifact is created at tick
4 = 3 + 1, is Confident, and is known exactly by the recipient. -/
theorem process_report_spec_witness :
    (processReport .init demoFact "r" "b" (19/20)).2.created_at_tick = demoFact.tick + 1
    ∧ (processReport .init demoFact "r" "b" (19/20)).2.reliability
        = Artifacts.ReliabilityLevel.confident
    ∧ (processReport .init demoFact "r" "b" (19/20)).2.known_by = ["b"] := by
  have h := process_report_spec .init demoFact "r" "b" (19/20)
  exact ⟨h.1, h.2.1 (by norm_num), h.2.2.2.2⟩

end Perception

/-! ## Observer path of `WorldState.move_character`
(`world_engine/core/world_state.py`, lines 160-178) -/

namespace Movement

/-- The observer branch of `WorldState.move_character`: the movement fact is
recorded in the objective world, the observer receives a CERTAIN
direct-observation artifact of it, and forms a belief with
`trust_in_source = 1.0` and `base_skepticism` 0.2 when the observer has a
profile, 0.3 otherwise.  Returns the observer's artifact and belief. -/
def observerMoveOutcome (w : Objective.ObjectiveWorld) (g : Beliefs.BeliefGraph)
    (store : Artifacts.InformationArtifactStore)
    (character_id old_location new_location_id observer : String)
    (observers : List String) (hasProfile : Bool) (current_tick : Nat) :
    Artifacts.InformationArtifact × Beliefs.Belief :=
  let rf := w.recordFact current_tick "character_moved" character_id
    [("from", .str old_location), ("destination", .str new_location_id)] observers
  let po := Perception.processDirectObservation store rf.2 observer
  let base_skepticism : ℚ := if hasProfile then 2/10 else 3/10
  let fb := Beliefs.formBelief g observer po.2 current_tick 1 base_skepticism
  (po.2, fb.2)

/-- C5 (amended): when an observer directly observes a move, the resulting
direct-observation artifact is Certain and records the destination, and the
observer's belief is Confident with confidence exactly 0.8 when the observer
has a profile (base skepticism 0.2), Leaning-true with confidence 0.7
otherwise (base skepticism 0.3) — not Convinced and not ≥ 0.9. -/
theorem observer_move_belief_spec (w : Objective.ObjectiveWorld)
    (g : Beliefs.BeliefGraph) (store : Artifacts.InformationArtifactStore)
    (character_id old_loc new_loc observer : String) (observers : List String)
    (hasProfile : Bool) (tick : Nat) :
    (observerMoveOutcome w g store character_id old_loc new_loc observer
        observers hasProfile tick).2.belief_state
      = (if hasProfile then Beliefs.BeliefState.confident
         else Beliefs.BeliefState.leaningTrue)
    ∧ (observerMoveOutcome w g store character_id old_loc new_loc observer
        observers hasProfile tick).2.confidence
      = (if hasProfile then (8 : ℚ)/10 else 7/10)
    ∧ lookupA (observerMoveOutcome w g store character_id old_loc new_loc observer
        observers hasProfile tick).1.data "destination" = some (.str new_loc)
    ∧ (observerMoveOutcome w g store character_id old_loc new_loc observer
        observers hasProfile tick).1.reliability
      = Artifacts.ReliabilityLevel.certain := by
  cases hasProfile with
  | false =>
    refine ⟨?_, ?_, rfl, rfl⟩ <;>
      norm_num [observerMoveOutcome, Perception.processDirectObservation,
        Artifacts.createArtifact, Beliefs.formBelief,
        Beliefs.findContradictions_nil_of_no_contradicts, Beliefs.reliabilityToScore,
        Beliefs.scoreToBeliefState]
  | true =>
    refine ⟨?_, ?_, rfl, rfl⟩ <;>
      norm_num [observerMoveOutcome, Perception.processDirectObservation,
        Artifacts.createArtifact, Beliefs.formBelief,
        Beliefs.findContradictions_nil_of_no_contradicts, Beliefs.reliabilityToScore,
        Beliefs.scoreToBeliefState]

/-- C5 counterexample: character `a` (with profile) directly observes
character `b` moving from `loc_1` to `loc_2` at tick 5; the resulting belief
is Confident with confidence 0.8 — not Convinced, and below 0.9 — although
the artifact does record destination `loc_2`. -/
theorem observer_move_belief_counterexample :
    (observerMoveOutcome .init .init .init "b" "loc_1" "loc_2" "a" ["a"]
        true 5).2.belief_state = Beliefs.BeliefState.confident
    ∧ ¬ (observerMoveOutcome .init .init .init "b" "loc_1" "loc_2" "a" ["a"]
        true 5).2.belief_state = Beliefs.BeliefState.convinced
    ∧ (observerMoveOutcome .init .init .init "b" "loc_1" "loc_2" "a" ["a"]
        true 5).2.confidence = 4/5
    ∧ ¬ (9/10 : ℚ) ≤ (observerMoveOutcome .init .init .init "b" "loc_1" "loc_2"
        "a" ["a"] true 5).2.confidence
    ∧ lookupA (observerMoveOutcome .init .init .init "b" "loc_1" "loc_2" "a"
        ["a"] true 5).1.data "destination" = some (.str "loc_2") := by
  refine ⟨?_, ?_, ?_, ?_, rfl⟩ <;>
    norm_num [observerMoveOutcome, Perception.processDirectObservation,
      Artifacts.createArtifact, Beliefs.formBelief,
      Beliefs.findContradictions_nil_of_no_contradicts, Beliefs.reliabilityToScore,
      Beliefs.scoreToBeliefState] <;> decide

end Movement

/-! ## Event queue (`world_engine/core/event_queue.py`,
`world_engine/entities/event.py`) -/

namespace Events

inductive EventType where
  | characterAction
  | characterTravel
  | characterInteraction
  | locationEvent
  | factionConflict
  | environmental
  | battle
  | meeting
  | discovery
deriving DecidableEq, Repr

inductive EventStatus where
  | scheduled
  | active
  | completed
  | cancelled
deriving DecidableEq, Repr

/-- The `Event` pydantic model (the source field `type` is called `etype`
here because `type` is reserved in Lean). -/
structure Event where
  id : String
  etype : EventType
  status : EventStatus
  scheduled_tick : Nat
  start_tick : Option Nat
  end_tick : Option Nat
  duration_ticks : Nat
  location_id : String
  participants : List String
  title : String
  description : String
  priority : Nat
  visibility : String
deriving DecidableEq, Repr

/-- `QueuedEvent`: `@dataclass(order=True)` comparing `(tick, priority)`,
with `event` excluded from comparison (`compare=False`). -/
structure QueuedEvent where
  tick : Nat
  priority : Nat
  event : Event
deriving DecidableEq, Repr

/-- The `(tick, priority)` lexicographic order of `QueuedEvent`. -/
def qle (a b : QueuedEvent) : Prop :=
  a.tick < b.tick ∨ (a.tick = b.tick ∧ a.priority ≤ b.priority)

instance : DecidableRel qle := fun a b => by unfold qle; infer_instance

instance : IsTotal QueuedEvent qle := ⟨fun a b => by unfold qle; omega⟩

instance : IsTrans QueuedEvent qle := ⟨fun a b c hab hbc => by unfold qle at *; omega⟩

/-- `EventQueue` state: the `PriorityQueue` is modelled as a list kept sorted
by `(tick, priority)`; ties are placed adjacently (the heap leaves their
relative order unspecified). -/
structure EventQueue where
  queue : List QueuedEvent
  active_events : List (String × Event)
  completed_events : List Event
  total_scheduled : Nat
  total_processed : Nat
deriving DecidableEq, Repr

def EventQueue.init : EventQueue := ⟨[], [], [], 0, 0⟩

/-- `EventQueue.schedule`. -/
def schedule (q : EventQueue) (event : Event) : EventQueue :=
  let queued : QueuedEvent := ⟨event.scheduled_tick, event.priority, event⟩
  { q with
    queue := List.orderedInsert qle queued q.queue
    total_scheduled := q.total_scheduled + 1 }

/-- `EventQueue.schedule_multiple`. -/
def scheduleAll (q : EventQueue) (events : List Event) : EventQueue :=
  events.foldl schedule q

/-- `event.status = ACTIVE; event.start_tick = current_tick`. -/
def markActive (current : Nat) (ev : Event) : Event :=
  { ev with status := EventStatus.active, start_tick := some current }

/-- The executor call of `process_due_events`: `exec = none` models no
executor; `some f` with `f ev = false` models an executor that raises — the
exception is caught and the event is marked CANCELLED. -/
def runExecutor (exec : Option (Event → Bool)) (ev : Event) : Event :=
  match exec with
  | none => ev
  | some f => if f ev then ev else { ev with status := EventStatus.cancelled }

/-- The dequeue loop of `EventQueue.process_due_events`: pops due events in
order, marks them active, stores them in `active_events`, runs the executor,
and collects them. -/
def processDueAux (current : Nat) (exec : Option (Event → Bool)) :
    List QueuedEvent → List (String × Event) →
      List QueuedEvent × List (String × Event) × List Event
  | [], active => ([], active, [])
  | queued :: rest, active =>
    if queued.tick ≤ current then
      let ev₂ := runExecutor exec (markActive current queued.event)
      let r := processDueAux current exec rest (insertA active ev₂.id ev₂)
      (r.1, r.2.1, ev₂ :: r.2.2)
    else (queued :: rest, active, [])

/-- `EventQueue.process_due_events`. -/
def processDueEvents (q : EventQueue) (current : Nat)
    (exec : Option (Event → Bool)) : EventQueue × List Event :=
  let r := processDueAux current exec q.queue q.active_events
  ({ q with
      queue := r.1
      active_events := r.2.1
      total_processed := q.total_processed + r.2.2.length }, r.2.2)

/-- `EventQueue.complete_event`. -/
def completeEvent (q : EventQueue) (event_id : String) (current : Nat) :
    EventQueue × Option Event :=
  match lookupA q.active_events event_id with
  | none => (q, none)
  | some event =>
    let event' := { event with
      status := EventStatus.completed, end_tick := some current }
    ({ q with
        active_events := removeA q.active_events event_id
        completed_events := q.completed_events ++ [event'] }, some event')

/-- `EventQueue.update_active_events` (`elapsed = current - start` is Python
integer arithmetic, hence the cast to `ℤ`). -/
def updateActiveEvents (q : EventQueue) (current : Nat) : EventQueue :=
  let to_complete := (q.active_events.filter fun p =>
    match p.2.start_tick with
    | some start => decide ((current : ℤ) - start ≥ p.2.duration_ticks)
    | none => false).map fun p => p.1
  to_complete.foldl (fun acc event_id => (completeEvent acc event_id current).1) q

/-- Where an event currently lives, and with which status. -/
def statusOf (q : EventQueue) (event_id : String) : Option EventStatus :=
  match lookupA q.active_events event_id with
  | some ev => some ev.status
  | none =>
    match q.completed_events.find? fun ev => decide (ev.id = event_id) with
    | some ev => some ev.status
    | none => none

def failingExec : Event → Bool := fun _ => false

def e1 : Event :=
  ⟨"e1", .characterAction, .scheduled, 0, none, none, 1, "loc", [], "t", "d", 5,
    "public"⟩

/-- C6: evaluation of the code at the failing input.  Event `e1` is
scheduled, then processed at tick 0 with an executor that raises: the code
marks it CANCELLED but leaves it in `active_events`, so `complete_event` at
tick 1 transitions it from Cancelled to Completed — the Cancelled status is
not terminal, contradicting the claimed linear state machine. -/
theorem cancelled_event_becomes_completed :
    statusOf (processDueEvents (schedule .init e1) 0 (some failingExec)).1 "e1"
      = some EventStatus.cancelled
    ∧ statusOf (completeEvent
        (processDueEvents (schedule .init e1) 0 (some failingExec)).1 "e1" 1).1 "e1"
      = some EventStatus.completed := by
  decide

/-- The `(scheduled_tick, priority)` order on the events themselves. -/
def evle (a b : Event) : Prop :=
  a.scheduled_tick < b.scheduled_tick
    ∨ (a.scheduled_tick = b.scheduled_tick ∧ a.priority ≤ b.priority)

theorem transform_key (current : Nat) (exec : Option (Event → Bool)) (ev : Event) :
    (runExecutor exec (markActive current ev)).scheduled_tick = ev.scheduled_tick
    ∧ (runExecutor exec (markActive current ev)).priority = ev.priority := by
  cases exec with
  | none => exact ⟨rfl, rfl⟩
  | some f =>
    constructor
    · show (if f (markActive current ev) = true then markActive current ev
        else { markActive current ev with status := EventStatus.cancelled }).scheduled_tick
        = ev.scheduled_tick
      split_ifs <;> rfl
    · show (if f (markActive current ev) = true then markActive current ev
        else { markActive current ev with status := EventStatus.cancelled }).priority
        = ev.priority
      split_ifs <;> rfl

/-- Queue entries created by `schedule` carry their event's key. -/
def queueWF (l : List QueuedEvent) : Prop :=
  ∀ qe ∈ l, qe.tick = qe.event.scheduled_tick ∧ qe.priority = qe.event.priority

theorem scheduleAll_queue_wf (evs : List Event) :
    ∀ q : EventQueue, queueWF q.queue → queueWF (scheduleAll q evs).queue := by
  induction evs with
  | nil => intro q hq; exact hq
  | cons e rest ih =>
    intro q hq
    apply ih
    intro qe hqe
    simp only [schedule, List.mem_orderedInsert] at hqe
    rcases hqe with rfl | hqe
    · exact ⟨rfl, rfl⟩
    · exact hq qe hqe

theorem scheduleAll_queue_sorted (evs : List Event) :
    ∀ q : EventQueue, q.queue.Sorted qle → (scheduleAll q evs).queue.Sorted qle := by
  induction evs with
  | nil => intro q hq; exact hq
  | cons e rest ih =>
    intro q hq
    exact ih _ (List.Sorted.orderedInsert _ _ hq)

theorem processDueAux_spec (current : Nat) (exec : Option (Event → Bool)) :
    ∀ (l : List QueuedEvent) (active : List (String × Event)),
      l.Sorted qle → queueWF l →
      List.Pairwise evle (processDueAux current exec l active).2.2
      ∧ ∀ e ∈ (processDueAux current exec l active).2.2,
          ∃ qe ∈ l, e.scheduled_tick = qe.tick ∧ e.priority = qe.priority := by
  intro l
  induction l with
  | nil =>
    intro active _ _
    exact ⟨List.Pairwise.nil, by simp [processDueAux]⟩
  | cons queued rest ih =>
    intro active hsort hwf
    obtain ⟨hhead, htail⟩ := List.pairwise_cons.mp hsort
    have hwf' : queueWF rest := fun qe hqe => hwf qe (List.mem_cons_of_mem _ hqe)
    have hwq := hwf queued (List.mem_cons_self _ _)
    have hk := transform_key current exec queued.event
    by_cases h : queued.tick ≤ current
    · obtain ⟨ihp, iho⟩ := ih (insertA active
        (runExecutor exec (markActive current queued.event)).id
        (runExecutor exec (markActive current queued.event))) htail hwf'
      simp only [processDueAux, if_pos h]
      constructor
      · refine List.Pairwise.cons ?_ ihp
        intro e he
        obtain ⟨qe, hqe, hkey1, hkey2⟩ := iho e he
        have hq := hhead qe hqe
        unfold qle at hq
        unfold evle
        omega
      · intro e he
        rcases List.mem_cons.mp he with rfl | he'
        · exact ⟨queued, List.mem_cons_self _ _, by omega, by omega⟩
        · obtain ⟨qe, hqe, hk1, hk2⟩ := iho e he'
          exact ⟨qe, List.mem_cons_of_mem _ hqe, hk1, hk2⟩
    · refine ⟨?_, ?_⟩ <;> simp [processDueAux, if_neg h]

def evP1 : Event :=
  ⟨"p1", .meeting, .scheduled, 10, none, none, 1, "loc", [], "t1", "d", 1, "public"⟩

def evP5 : Event :=
  ⟨"p5", .meeting, .scheduled, 10, none, none, 1, "loc", [], "t5", "d", 5, "public"⟩

/-- C7: for every list of scheduled events, `process_due_events` returns the
due events in ascending `(scheduled_tick, priority)` order; and for the two
concrete events with tick 10 and priorities 1 and 5, whichever order they are
scheduled in, the priority-1 event is dequeued first. -/
theorem process_due_events_order_spec :
    (∀ (evs : List Event) (current : Nat) (exec : Option (Event → Bool)),
      List.Pairwise evle (processDueEvents (scheduleAll .init evs) current exec).2)
    ∧ (processDueEvents (scheduleAll .init [evP5, evP1]) 10 none).2
        = [markActive 10 evP1, markActive 10 evP5]
    ∧ (processDueEvents (scheduleAll .init [evP1, evP5]) 10 none).2
        = [markActive 10 evP1, markActive 10 evP5] := by
  refine ⟨?_, by decide, by decide⟩
  intro evs current exec
  have hsort := scheduleAll_queue_sorted evs .init (by simp [EventQueue.init])
  have hwf := scheduleAll_queue_wf evs .init (by intro qe hqe; simp [EventQueue.init] at hqe)
  exact (processDueAux_spec current exec (scheduleAll .init evs).queue
    (scheduleAll .init evs).active_events hsort hwf).1

end Events

/-! ## Story arcs (`world_engine/ai/story_arc_tracker.py`) -/

namespace Arcs

inductive ArcStatus where
  | setup
  | developing
  | climax
  | resolution
  | complete
  | abandoned
deriving DecidableEq, Repr

/-- `StoryArc` dataclass; a beat is `(tick, description, type)`. -/
structure StoryArc where
  arc_id : String
  arc_type : String
  title : String
  theme : String
  characters_involved : List String
  start_tick : Nat
  current_status : ArcStatus
  completion_percent : ℚ
  beats : List (Nat × String × String)
  last_update_tick : Nat
  milestones_achieved : List String
deriving DecidableEq, Repr

/-- `StoryArc.add_beat`. -/
def addBeat (arc : StoryArc) (tick : Nat) (description beat_type : String) :
    StoryArc :=
  { arc with
    beats := arc.beats ++ [(tick, description, beat_type)]
    last_update_tick := tick }

/-- The `status_completion` dict of `advance_status`
(`.get(new_status, 0.0)` supplies 0 for `ABANDONED`). -/
def statusCompletion : ArcStatus → ℚ
  | .setup => 2/10
  | .developing => 5/10
  | .climax => 8/10
  | .resolution => 95/100
  | .complete => 1
  | .abandoned => 0

/-- `StoryArc.advance_status`. -/
def advanceStatus (arc : StoryArc) (new_status : ArcStatus) : StoryArc :=
  { arc with
    current_status := new_status
    completion_percent := statusCompletion new_status }

/-- `StoryArcTracker` state. -/
structure StoryArcTracker where
  active_arcs : List (String × StoryArc)
  completed_arcs : List StoryArc
  next_arc_id : Nat
deriving DecidableEq, Repr

def StoryArcTracker.init : StoryArcTracker := ⟨[], [], 0⟩

/-- `StoryArcTracker.create_arc`. -/
def createArc (tr : StoryArcTracker) (arc_type title theme : String)
    (characters : List String) (current_tick : Nat) :
    StoryArcTracker × StoryArc :=
  let arc_id := "arc" ++ "_" ++ natStr tr.next_arc_id
  let arc : StoryArc := ⟨arc_id, arc_type, title, theme, characters, current_tick,
    .setup, 0, [], current_tick, []⟩
  ({ tr with
      next_arc_id := tr.next_arc_id + 1
      active_arcs := insertA tr.active_arcs arc_id arc }, arc)

/-- `StoryArcTracker.complete_arc`. -/
def completeArc (tr : StoryArcTracker) (arc_id : String) (current_tick : Nat) :
    StoryArcTracker :=
  match lookupA tr.active_arcs arc_id with
  | none => tr
  | some arc =>
    let arc' := { advanceStatus arc .complete with last_update_tick := current_tick }
    { tr with
      active_arcs := removeA tr.active_arcs arc_id
      completed_arcs := tr.completed_arcs ++ [arc'] }

/-- Writing the mutated arc object back into the tracker (Python mutates the
shared object held in `active_arcs`). -/
def setArc (tr : StoryArcTracker) (arc : StoryArc) : StoryArcTracker :=
  { tr with active_arcs := insertA tr.active_arcs arc.arc_id arc }

/-- `StoryArcTracker._check_progression`. -/
def checkProgression (tr : StoryArcTracker) (arc : StoryArc) (current_tick : Nat) :
    StoryArcTracker :=
  let num_beats := arc.beats.length
  if arc.current_status = ArcStatus.setup ∧ 2 ≤ num_beats then
    setArc tr (advanceStatus arc .developing)
  else if arc.current_status = ArcStatus.developing ∧ 5 ≤ num_beats then
    setArc tr (advanceStatus arc .climax)
  else if arc.current_status = ArcStatus.climax ∧ 7 ≤ num_beats then
    setArc tr (advanceStatus arc .resolution)
  else if arc.current_status = ArcStatus.resolution ∧ 8 ≤ num_beats then
    completeArc tr arc.arc_id current_tick
  else tr

/-- `StoryArcTracker.update_arc`. -/
def updateArc (tr : StoryArcTracker) (arc_id : String) (current_tick : Nat)
    (beat_description beat_type : String) : StoryArcTracker :=
  match lookupA tr.active_arcs arc_id with
  | none => tr
  | some arc =>
    let arc1 := addBeat arc current_tick beat_description beat_type
    let tr1 := { tr with active_arcs := insertA tr.active_arcs arc_id arc1 }
    checkProgression tr1 arc1 current_tick

/-- `StoryArcTracker.get_stats`: (active, completed, total). -/
def getStats (tr : StoryArcTracker) : Nat × Nat × Nat :=
  (tr.active_arcs.length, tr.completed_arcs.length,
    tr.active_arcs.length + tr.completed_arcs.length)

/-- `n` successive `update_arc` beats on the same arc. -/
def addBeats (tr : StoryArcTracker) (arc_id : String) (tick : Nat) :
    Nat → StoryArcTracker
  | 0 => tr
  | n + 1 => updateArc (addBeats tr arc_id tick n) arc_id tick "beat" "development"

/-- C9: a freshly created arc fed beats one at a time is Setup after 1 beat,
advances to Developing at beat 2, stays Developing through beats 3-4, reaches
Climax at beat 5, Resolution at beat 7, and at beat 8 is completed: it leaves
`active_arcs`, appears Complete in `completed_arcs`, and the statistics count
it as completed, not active. -/
theorem story_arc_eight_beats_spec (arc_type title theme : String)
    (characters : List String) (tick : Nat) :
    ((lookupA (addBeats (createArc .init arc_type title theme characters tick).1
        "arc_0" tick 1).active_arcs "arc_0").map StoryArc.current_status
      = some ArcStatus.setup)
    ∧ ((lookupA (addBeats (createArc .init arc_type title theme characters tick).1
        "arc_0" tick 2).active_arcs "arc_0").map StoryArc.current_status
      = some ArcStatus.developing)
    ∧ ((lookupA (addBeats (createArc .init arc_type title theme characters tick).1
        "arc_0" tick 3).active_arcs "arc_0").map StoryArc.current_status
      = some ArcStatus.developing)
    ∧ ((lookupA (addBeats (createArc .init arc_type title theme characters tick).1
        "arc_0" tick 4).active_arcs "arc_0").map StoryArc.current_status
      = some ArcStatus.developing)
    ∧ ((lookupA (addBeats (createArc .init arc_type title theme characters tick).1
        "arc_0" tick 5).active_arcs "arc_0").map StoryArc.current_status
      = some ArcStatus.climax)
    ∧ ((lookupA (addBeats (createArc .init arc_type title theme characters tick).1
        "arc_0" tick 6).active_arcs "arc_0").map StoryArc.current_status
      = some ArcStatus.climax)
    ∧ ((lookupA (addBeats (createArc .init arc_type title theme characters tick).1
        "arc_0" tick 7).active_arcs "arc_0").map StoryArc.current_status
      = some ArcStatus.resolution)
    ∧ lookupA (addBeats (createArc .init arc_type title theme characters tick).1
        "arc_0" tick 8).active_arcs "arc_0" = none
    ∧ ((addBeats (createArc .init arc_type title theme characters tick).1
        "arc_0" tick 8).completed_arcs.map StoryArc.current_status
      = [ArcStatus.complete])
    ∧ getStats (addBeats (createArc .init arc_type title theme characters tick).1
        "arc_0" tick 8) = (0, 1, 1) := by
  have hcreate : (createArc .init arc_type title theme characters tick).1
      = (⟨[("arc_0", ⟨"arc_0", arc_type, title, theme, characters, tick,
        ArcStatus.setup, 0, [], tick, []⟩)], [], 1⟩ : StoryArcTracker) := rfl
  have hstep1 :
      updateArc ⟨[("arc_0", ⟨"arc_0", arc_type, title, theme, characters, tick,
        ArcStatus.setup, 0, [], tick, []⟩)], [], 1⟩ "arc_0" tick "beat" "development"
      = (⟨[("arc_0", ⟨"arc_0", arc_type, title, theme, characters, tick,
        ArcStatus.setup, 0, [(tick, "beat", "development")], tick, []⟩)], [], 1⟩ : StoryArcTracker) := rfl
  have hstep2 :
      updateArc ⟨[("arc_0", ⟨"arc_0", arc_type, title, theme, characters, tick,
        ArcStatus.setup, 0, [(tick, "beat", "development")], tick, []⟩)], [], 1⟩ "arc_0" tick "beat" "development"
      = (⟨[("arc_0", ⟨"arc_0", arc_type, title, theme, characters, tick,
        ArcStatus.developing, 5/10, [(tick, "beat", "development"), (tick, "beat", "development")], tick, []⟩)], [], 1⟩ : StoryArcTracker) := rfl
  have hstep3 :
      updateArc ⟨[("arc_0", ⟨"arc_0", arc_type, title, theme, characters, tick,
        ArcStatus.developing, 5/10, [(tick, "beat", "development"), (tick, "beat", "development")], tick, []⟩)], [], 1⟩ "arc_0" tick "beat" "development"
      = (⟨[("arc_0", ⟨"arc_0", arc_type, title, theme, characters, tick,
        ArcStatus.developing, 5/10, [(tick, "beat", "development"), (tick, "beat", "development"), (tick, "beat", "development")], tick, []⟩)], [], 1⟩ : StoryArcTracker) := rfl
  have hstep4 :
      updateArc ⟨[("arc_0", ⟨"arc_0", arc_type, title, theme, characters, tick,
        ArcStatus.developing, 5/10, [(tick, "beat", "development"), (tick, "beat", "development"), (tick, "beat", "development")], tick, []⟩)], [], 1⟩ "arc_0" tick "beat" "development"
      = (⟨[("arc_0", ⟨"arc_0", arc_type, title, theme, characters, tick,
        ArcStatus.developing, 5/10, [(tick, "beat", "development"), (tick, "beat", "development"), (tick, "beat", "development"), (tick, "beat", "development")], tick, []⟩)], [], 1⟩ : StoryArcTracker) := rfl
  have hstep5 :
      updateArc ⟨[("arc_0", ⟨"arc_0", arc_type, title, theme, characters, tick,
        ArcStatus.developing, 5/10, [(tick, "beat", "development"), (tick, "beat", "development"), (tick, "beat", "development"), (tick, "beat", "development")], tick, []⟩)], [], 1⟩ "arc_0" tick "beat" "development"
      = (⟨[("arc_0", ⟨"arc_0", arc_type, title, theme, characters, tick,
        ArcStatus.climax, 8/10, [(tick, "beat", "development"), (tick, "beat", "development"), (tick, "beat", "development"), (tick, "beat", "development"), (tick, "beat", "development")], tick, []⟩)], [], 1⟩ : StoryArcTracker) := rfl
  have hstep6 :
      updateArc ⟨[("arc_0", ⟨"arc_0", arc_type, title, theme, characters, tick,
        ArcStatus.climax, 8/10, [(tick, "beat", "development"), (tick, "beat", "development"), (tick, "beat", "development"), (tick, "beat", "development"), (tick, "beat", "development")], tick, []⟩)], [], 1⟩ "arc_0" tick "beat" "development"
      = (⟨[("arc_0", ⟨"arc_0", arc_type, title, theme, characters, tick,
        ArcStatus.climax, 8/10, [(tick, "beat", "development"), (tick, "beat", "development"), (tick, "beat", "development"), (tick, "beat", "development"), (tick, "beat", "development"), (tick, "beat", "development")], tick, []⟩)], [], 1⟩ : StoryArcTracker) := rfl
  have hstep7 :
      updateArc ⟨[("arc_0", ⟨"arc_0", arc_type, title, theme, characters, tick,
        ArcStatus.climax, 8/10, [(tick, "beat", "development"), (tick, "beat", "development"), (tick, "beat", "development"), (tick, "beat", "development"), (tick, "beat", "development"), (tick, "beat", "development")], tick, []⟩)], [], 1⟩ "arc_0" tick "beat" "development"
      = (⟨[("arc_0", ⟨"arc_0", arc_type, title, theme, characters, tick,
        ArcStatus.resolution, 95/100, [(tick, "beat", "development"), (tick, "beat", "development"), (tick, "beat", "development"), (tick, "beat", "development"), (tick, "beat", "development"), (tick, "beat", "development"), (tick, "beat", "development")], tick, []⟩)], [], 1⟩ : StoryArcTracker) := rfl
  have hstep8 :
      updateArc ⟨[("arc_0", ⟨"arc_0", arc_type, title, theme, characters, tick,
        ArcStatus.resolution, 95/100, [(tick, "beat", "development"), (tick, "beat", "development"), (tick, "beat", "development"), (tick, "beat", "development"), (tick, "beat", "development"), (tick, "beat", "development"), (tick, "beat", "development")], tick, []⟩)], [], 1⟩ "arc_0" tick "beat" "development"
      = (⟨[], [⟨"arc_0", arc_type, title, theme, characters, tick,
        ArcStatus.complete, 1, [(tick, "beat", "development"), (tick, "beat", "development"), (tick, "beat", "development"), (tick, "beat", "development"), (tick, "beat", "development"), (tick, "beat", "development"), (tick, "beat", "development"), (tick, "beat", "development")], tick, []⟩], 1⟩ : StoryArcTracker) := rfl
  have c0 : addBeats (createArc .init arc_type title theme characters tick).1
      "arc_0" tick 0 = (⟨[("arc_0", ⟨"arc_0", arc_type, title, theme, characters, tick,
        ArcStatus.setup, 0, [], tick, []⟩)], [], 1⟩ : StoryArcTracker) := hcreate
  have c1 : addBeats (createArc .init arc_type title theme characters tick).1
      "arc_0" tick 1 = (⟨[("arc_0", ⟨"arc_0", arc_type, title, theme, characters, tick,
        ArcStatus.setup, 0, [(tick, "beat", "development")], tick, []⟩)], [], 1⟩ : StoryArcTracker) := by
    show updateArc (addBeats (createArc .init arc_type title theme characters tick).1
        "arc_0" tick 0) "arc_0" tick "beat" "development" = _
    rw [c0]
    exact hstep1
  have c2 : addBeats (createArc .init arc_type title theme characters tick).1
      "arc_0" tick 2 = (⟨[("arc_0", ⟨"arc_0", arc_type, title, theme, characters, tick,
        ArcStatus.developing, 5/10, [(tick, "beat", "development"), (tick, "beat", "development")], tick, []⟩)], [], 1⟩ : StoryArcTracker) := by
    show updateArc (addBeats (createArc .init arc_type title theme characters tick).1
        "arc_0" tick 1) "arc_0" tick "beat" "development" = _
    rw [c1]
    exact hstep2
  have c3 : addBeats (createArc .init arc_type title theme characters tick).1
      "arc_0" tick 3 = (⟨[("arc_0", ⟨"arc_0", arc_type, title, theme, characters, tick,
        ArcStatus.developing, 5/10, [(tick, "beat", "development"), (tick, "beat", "development"), (tick, "beat", "development")], tick, []⟩)], [], 1⟩ : StoryArcTracker) := by
    show updateArc (addBeats (createArc .init arc_type title theme characters tick).1
        "arc_0" tick 2) "arc_0" tick "beat" "development" = _
    rw [c2]
    exact hstep3
  have c4 : addBeats (createArc .init arc_type title theme characters tick).1
      "arc_0" tick 4 = (⟨[("arc_0", ⟨"arc_0", arc_type, title, theme, characters, tick,
        ArcStatus.developing, 5/10, [(tick, "beat", "development"), (tick, "beat", "development"), (tick, "beat", "development"), (tick, "beat", "development")], tick, []⟩)], [], 1⟩ : StoryArcTracker) := by
    show updateArc (addBeats (createArc .init arc_type title theme characters tick).1
        "arc_0" tick 3) "arc_0" tick "beat" "development" = _
    rw [c3]
    exact hstep4
  have c5 : addBeats (createArc .init arc_type title theme characters tick).1
      "arc_0" tick 5 = (⟨[("arc_0", ⟨"arc_0", arc_type, title, theme, characters, tick,
        ArcStatus.climax, 8/10, [(tick, "beat", "development"), (tick, "beat", "development"), (tick, "beat", "development"), (tick, "beat", "development"), (tick, "beat", "development")], tick, []⟩)], [], 1⟩ : StoryArcTracker) := by
    show updateArc (addBeats (createArc .init arc_type title theme characters tick).1
        "arc_0" tick 4) "arc_0" tick "beat" "development" = _
    rw [c4]
    exact hstep5
  have c6 : addBeats (createArc .init arc_type title theme characters tick).1
      "arc_0" tick 6 = (⟨[("arc_0", ⟨"arc_0", arc_type, title, theme, characters, tick,
        ArcStatus.climax, 8/10, [(tick, "beat", "development"), (tick, "beat", "development"), (tick, "beat", "development"), (tick, "beat", "development"), (tick, "beat", "development"), (tick, "beat", "development")], tick, []⟩)], [], 1⟩ : StoryArcTracker) := by
    show updateArc (addBeats (createArc .init arc_type title theme characters tick).1
        "arc_0" tick 5) "arc_0" tick "beat" "development" = _
    rw [c5]
    exact hstep6
  have c7 : addBeats (createArc .init arc_type title theme characters tick).1
      "arc_0" tick 7 = (⟨[("arc_0", ⟨"arc_0", arc_type, title, theme, characters, tick,
        ArcStatus.resolution, 95/100, [(tick, "beat", "development"), (tick, "beat", "development"), (tick, "beat", "development"), (tick, "beat", "development"), (tick, "beat", "development"), (tick, "beat", "development"), (tick, "beat", "development")], tick, []⟩)], [], 1⟩ : StoryArcTracker) := by
    show updateArc (addBeats (createArc .init arc_type title theme characters tick).1
        "arc_0" tick 6) "arc_0" tick "beat" "development" = _
    rw [c6]
    exact hstep7
  have c8 : addBeats (createArc .init arc_type title theme characters tick).1
      "arc_0" tick 8 = (⟨[], [⟨"arc_0", arc_type, title, theme, characters, tick,
        ArcStatus.complete, 1, [(tick, "beat", "development"), (tick, "beat", "development"), (tick, "beat", "development"), (tick, "beat", "development"), (tick, "beat", "development"), (tick, "beat", "development"), (tick, "beat", "development"), (tick, "beat", "development")], tick, []⟩], 1⟩ : StoryArcTracker) := by
    show updateArc (addBeats (createArc .init arc_type title theme characters tick).1
        "arc_0" tick 7) "arc_0" tick "beat" "development" = _
    rw [c7]
    exact hstep8
  rw [c1, c2, c3, c4, c5, c6, c7, c8]
  exact ⟨rfl, rfl, rfl, rfl, rfl, rfl, rfl, rfl, rfl, rfl⟩

end Arcs

end WorldEngine
